import Mathlib

/-!
Verification of the login form component (src/Login.jsx).

The component keeps a three-field reducer state (`resolved`, `loading`,
`error`), and its submit handler prevents the default form submission,
resets the state to a loading state, issues one POST request to a fixed
endpoint, and on the response either records success and stores the token
in browser storage, or records the response body's message as the error.
We embed the reducer, the handler (as the ordered trace of its effects),
and the render function, and prove the stated properties about them.
-/

/-- The component state held by `React.useReducer`: the three fields of the
initial object `{resolved: false, loading: false, error: null}`. A JS string
or `null` is `Option String`. -/
structure LoginState where
  resolved : Bool
  loading : Bool
  error : Option String
deriving DecidableEq, Repr

/-- An argument to `setState`: a partial update object. A field that the
object does not mention is `none`; note `error` can be present and set to
`null`, hence `Option (Option String)`. -/
structure UpdateAction where
  resolved : Option Bool
  loading : Option Bool
  error : Option (Option String)
deriving DecidableEq, Repr

/-- The reducer `(s, a) => ({...s, ...a})`: fields present in the action
override the state, the rest are kept. -/
def reduce (s : LoginState) (a : UpdateAction) : LoginState :=
  { resolved := a.resolved.getD s.resolved
    loading := a.loading.getD s.loading
    error := a.error.getD s.error }

/-- The initial reducer state `{resolved: false, loading: false, error: null}`. -/
def initState : LoginState :=
  { resolved := false, loading := false, error := none }

/-- The JSON body the mocked server answers with: a `token` field (used on
the success path) and a `message` field (used on the failure path). -/
structure ResponseBody where
  token : String
  message : String
deriving DecidableEq, Repr

/-- An HTTP response as the handler observes it: the `ok` flag of the fetch
response and the parsed JSON body. -/
structure ServerResponse where
  ok : Bool
  body : ResponseBody
deriving DecidableEq, Repr

/-- The object passed to `JSON.stringify` as the request body:
`{username: usernameInput.value, password: passwordInput.value}`. -/
structure LoginRequestBody where
  username : String
  password : String
deriving DecidableEq, Repr

/-- A fetch request: method, url, the `Content-Type` header and the body. -/
structure Request where
  method : String
  url : String
  contentType : String
  body : LoginRequestBody
deriving DecidableEq, Repr

/-- The request `handleSubmit` builds from the two input values. -/
def loginRequest (u p : String) : Request :=
  { method := "POST"
    url := "http://localhost:3000/api/login"
    contentType := "application/json"
    body := { username := u, password := p } }

/-- One observable effect of the submit handler, in program order.
`storageSet k v` is `window.localStorage.setItem(k, v)`; `storageGet k`
would be a `getItem(k)` (the component performs none, the constructor is
here so that "every storage access" is statable). -/
inductive Event where
  | preventDefault
  | stateUpdate (a : UpdateAction)
  | fetchRequest (r : Request)
  | storageSet (key value : String)
  | storageGet (key : String)
deriving DecidableEq, Repr

/-- `setState({loading: true, resolved: false, error: null})`. -/
def loadingAction : UpdateAction :=
  { loading := some true, resolved := some false, error := some none }

/-- `setState({loading: false, resolved: true, error: null})`. -/
def successAction : UpdateAction :=
  { loading := some false, resolved := some true, error := some none }

/-- `setState({loading: false, resolved: false, error: error.message})`. -/
def failureAction (m : String) : UpdateAction :=
  { loading := some false, resolved := some false, error := some (some m) }

/-- The submit handler, as the ordered trace of its effects for a given pair
of input values and a given server response: prevent the default submission,
set the loading state, issue the fetch, then — since `r.json()` resolves to
the body and `r.ok` selects the continuation — either record success and
store the token, or record the body's message as the error. -/
def handleSubmit (u p : String) (resp : ServerResponse) : List Event :=
  [Event.preventDefault,
   Event.stateUpdate loadingAction,
   Event.fetchRequest (loginRequest u p)] ++
  (if resp.ok then
    [Event.stateUpdate successAction,
     Event.storageSet "token" resp.body.token]
  else
    [Event.stateUpdate (failureAction resp.body.message)])

/-- The fetch requests a trace issues. -/
def requestsOf (es : List Event) : List Request :=
  es.filterMap fun e =>
    match e with
    | Event.fetchRequest r => some r
    | _ => none

/-- The `(key, value)` pairs a trace writes to browser storage. -/
def storageSetsOf (es : List Event) : List (String × String) :=
  es.filterMap fun e =>
    match e with
    | Event.storageSet k v => some (k, v)
    | _ => none

/-- The keys of every storage access (read or write) in a trace. -/
def storageKeysOf (es : List Event) : List String :=
  es.filterMap fun e =>
    match e with
    | Event.storageSet k _ => some k
    | Event.storageGet k => some k
    | _ => none

/-- The `setState` arguments of a trace, in order. -/
def updatesOf (es : List Event) : List UpdateAction :=
  es.filterMap fun e =>
    match e with
    | Event.stateUpdate a => some a
    | _ => none

/-- The state a trace's updates produce from a starting state. -/
def runUpdates (s : LoginState) (es : List Event) : LoginState :=
  (updatesOf es).foldl reduce s

/-- The component state after a full submission starting from `initState`. -/
def finalState (u p : String) (resp : ServerResponse) : LoginState :=
  runUpdates initState (handleSubmit u p resp)

/-- Browser storage as a partial map from keys to strings. -/
def Storage : Type := String → Option String

/-- Apply a list of `setItem` writes to a storage. -/
def applyStorageSets (ws : List (String × String)) (store : Storage) : Storage :=
  ws.foldl (fun st kv => fun k => if k = kv.1 then some kv.2 else st k) store

/-- The success state `{loading: false, resolved: true, error: null}`. -/
def successState : LoginState :=
  { loading := false, resolved := true, error := none }

/-- The failure state `{loading: false, resolved: false, error: message}`. -/
def failureState (m : String) : LoginState :=
  { loading := false, resolved := false, error := some m }

/-- The loading state `{loading: true, resolved: false, error: null}`. -/
def loadingState : LoginState :=
  { loading := true, resolved := false, error := none }

/-- JS truthiness of a string-or-null value: `null`, like the empty string,
is falsy; every other string is truthy. -/
def jsTruthy : Option String → Bool
  | none => false
  | some s => s != ""

/-- An element of the rendered DOM that matters here; `alert` is a
`<div role="alert">` with the given text. -/
inductive Element where
  | labelFor (htmlFor text : String)
  | inputBox (id : String)
  | submitButton (text : String)
  | alert (text : String)
deriving DecidableEq, Repr

/-- The JSX returned by `Login`: the form with its two labelled inputs and
the submit button (whose text gains `...` while loading), the error alert
when `state.error` is truthy, and the success alert when `state.resolved`. -/
def render (s : LoginState) : List Element :=
  [Element.labelFor "usernameInput" "Username",
   Element.inputBox "usernameInput",
   Element.labelFor "passwordInput" "Password",
   Element.inputBox "passwordInput",
   Element.submitButton (if s.loading then "Submit..." else "Submit")] ++
  (if jsTruthy s.error then [Element.alert (s.error.getD "")] else []) ++
  (if s.resolved then [Element.alert "Congrats! You're signed in!"] else [])

/-- The alert texts of a rendered view. -/
def alertsOf (es : List Element) : List String :=
  es.filterMap fun e =>
    match e with
    | Element.alert t => some t
    | _ => none

/-- The states reachable from the initial state by the submit flow's
`setState` updates (the loading reset, the success update, and the failure
update for any message). -/
inductive Reachable : LoginState → Prop where
  | init : Reachable initState
  | step_loading {s : LoginState} : Reachable s → Reachable (reduce s loadingAction)
  | step_success {s : LoginState} : Reachable s → Reachable (reduce s successAction)
  | step_failure {s : LoginState} (m : String) :
      Reachable s → Reachable (reduce s (failureAction m))

/-- Exactly one of the component's three view conditions — `loading`,
`resolved`, `error != null` — holds in a state. -/
def exactlyOne (s : LoginState) : Bool :=
  ([s.loading, s.resolved, s.error.isSome].count true) == 1

/-- The read keys of a trace's storage accesses (`getItem` calls). -/
def storageGetsOf (es : List Event) : List String :=
  es.filterMap fun e =>
    match e with
    | Event.storageGet k => some k
    | _ => none

theorem finalState_eq (u p : String) (resp : ServerResponse) :
    finalState u p resp =
      if resp.ok then successState else failureState resp.body.message := by
  rcases resp with ⟨ok, body⟩
  cases ok <;> rfl

/-- C1: every submission ends in exactly one of two outcomes — the success
state `{loading: false, resolved: true, error: null}` when the response is
ok, and the failure state `{loading: false, resolved: false, error:
body.message}` when it is not; the two outcome states are distinct. -/
theorem c1_submit_two_outcomes (u p : String) (resp : ServerResponse) :
    finalState u p resp =
      (if resp.ok then successState else failureState resp.body.message) ∧
    ∀ m : String, successState ≠ failureState m := by
  refine ⟨finalState_eq u p resp, fun m h => ?_⟩
  simp [successState, failureState] at h

/-- C2 fails as stated: the initial state is reachable by the submit flow's
updates (zero of them), and in it none of `loading`, `resolved`,
`error != null` holds, not exactly one. -/
theorem c2_counterexample :
    ¬ ∀ s : LoginState, Reachable s → exactlyOne s = true := fun h =>
  absurd (h initState Reachable.init) (by decide)

/-- C2 (amended): in every reachable state at most one of `loading`,
`resolved`, `error != null` holds — exactly one in every state reached by at
least one of the submit flow's updates, and none in the initial state. -/
theorem c2_reachable_at_most_one (s : LoginState) (h : Reachable s) :
    s = initState ∨ exactlyOne s = true := by
  induction h with
  | init => exact Or.inl rfl
  | step_loading _ _ => exact Or.inr rfl
  | step_success _ _ => exact Or.inr rfl
  | step_failure m _ _ => exact Or.inr rfl

theorem c2_reachable_at_most_one_witness :
    reduce initState loadingAction = initState ∨
      exactlyOne (reduce initState loadingAction) = true :=
  c2_reachable_at_most_one (reduce initState loadingAction)
    (Reachable.step_loading Reachable.init)

/-- C3 fails as stated: when the failed response's `message` field is the
empty string, `state.error` is falsy and no alert carrying the message is
rendered at all. -/
theorem c3_counterexample :
    Element.alert "" ∉
      render (finalState "chuck" "norris"
        { ok := false, body := { token := "", message := "" } }) := by
  decide

/-- C3 (amended): whenever a submission fails and the response body's
`message` field is a nonempty string, the component renders an alert element
whose text is that message (with an empty message no error alert appears,
since the empty string is falsy). -/
theorem c3_failure_renders_message (u p : String) (resp : ServerResponse)
    (hok : resp.ok = false) (hm : resp.body.message ≠ "") :
    Element.alert resp.body.message ∈ render (finalState u p resp) := by
  have ht : jsTruthy (some resp.body.message) = true := by
    simp [jsTruthy, hm]
  simp [finalState_eq, hok, render, failureState, ht]

theorem c3_failure_renders_message_witness :
    Element.alert "Internal server error" ∈
      render (finalState "chuck" "norris"
        { ok := false,
          body := { token := "", message := "Internal server error" } }) :=
  c3_failure_renders_message "chuck" "norris"
    { ok := false, body := { token := "", message := "Internal server error" } }
    rfl (by decide)

/-- C4: on an ok response the component ends in the resolved success state
and writes the response body's `token` field to the storage key `token`. -/
theorem c4_success_state_and_storage (u p : String) (resp : ServerResponse)
    (hok : resp.ok = true) :
    finalState u p resp = successState ∧
    storageSetsOf (handleSubmit u p resp) = [("token", resp.body.token)] := by
  rcases resp with ⟨ok, body⟩
  cases ok
  · exact Bool.noConfusion hok
  · exact ⟨rfl, rfl⟩

theorem c4_success_state_and_storage_witness :
    finalState "chuck" "norris"
        { ok := true, body := { token := "fake_user_token", message := "" } } =
      successState ∧
    storageSetsOf (handleSubmit "chuck" "norris"
        { ok := true, body := { token := "fake_user_token", message := "" } }) =
      [("token", "fake_user_token")] :=
  c4_success_state_and_storage "chuck" "norris"
    { ok := true, body := { token := "fake_user_token", message := "" } } rfl

/-- C5: every request a submission issues is a POST to the fixed endpoint
`http://localhost:3000/api/login` with Content-Type `application/json` and
the JSON encoding of the two input values as its body; the request does not
depend on the response and its url does not depend on any input. -/
theorem c5_request_fixed_endpoint (u p : String) (resp : ServerResponse) :
    requestsOf (handleSubmit u p resp) =
      [{ method := "POST"
         url := "http://localhost:3000/api/login"
         contentType := "application/json"
         body := { username := u, password := p } }] := by
  rcases resp with ⟨ok, body⟩
  cases ok <;> rfl

/-- C6: each invocation of the submit handler issues exactly one request. -/
theorem c6_exactly_one_request (u p : String) (resp : ServerResponse) :
    (requestsOf (handleSubmit u p resp)).length = 1 := by
  rcases resp with ⟨ok, body⟩
  cases ok <;> rfl

/-- C7: every storage access of a submission targets the key `token` — the
keys accessed are exactly `["token"]` on success and none on failure, so no
other key is ever read or written. -/
theorem c7_storage_only_token_key (u p : String) (resp : ServerResponse) :
    storageKeysOf (handleSubmit u p resp) =
      (if resp.ok then ["token"] else []) := by
  rcases resp with ⟨ok, body⟩
  cases ok <;> rfl

/-- C8: the component state is the three fields with initial values
`loading = false`, `resolved = false`, `error = null`, and it is ephemeral:
a submission writes to storage only the response's token under the key
`token` (never a state field) and performs no storage read at all, so the
state is neither persisted nor restored. -/
theorem c8_state_ephemeral :
    (initState.loading = false ∧ initState.resolved = false ∧
      initState.error = none) ∧
    (∀ (u p : String) (resp : ServerResponse),
      storageSetsOf (handleSubmit u p resp) =
        if resp.ok then [("token", resp.body.token)] else []) ∧
    (∀ (u p : String) (resp : ServerResponse),
      storageGetsOf (handleSubmit u p resp) = []) := by
  refine ⟨⟨rfl, rfl, rfl⟩, ?_, ?_⟩
  · intro u p resp
    rcases resp with ⟨ok, body⟩
    cases ok <;> rfl
  · intro u p resp
    rcases resp with ⟨ok, body⟩
    cases ok <;> rfl

/-- C9: a failed submission performs no storage write, so applying its
storage effects leaves every storage — in particular the key `token`,
whatever a previous successful login stored there — unchanged. -/
theorem c9_failure_leaves_storage (u p : String) (body : ResponseBody) :
    storageSetsOf (handleSubmit u p { ok := false, body := body }) = [] ∧
    ∀ store : Storage,
      applyStorageSets
        (storageSetsOf (handleSubmit u p { ok := false, body := body }))
        store = store :=
  ⟨rfl, fun _ => rfl⟩

/-- C10: the submit handler's first two effects are preventing the default
form submission and the state reset to `{loading: true, resolved: false,
error: null}`; the reset takes any previous state to the loading state, and
the view rendered from it shows no alert, so a previous error or success
message is cleared for the duration of the request. -/
theorem c10_prevent_default_and_reset (u p : String) (resp : ServerResponse) :
    (handleSubmit u p resp).take 2 =
      [Event.preventDefault, Event.stateUpdate loadingAction] ∧
    (∀ s : LoginState, reduce s loadingAction = loadingState) ∧
    (∀ s : LoginState, alertsOf (render (reduce s loadingAction)) = []) := by
  refine ⟨?_, fun s => rfl, fun s => rfl⟩
  rcases resp with ⟨ok, body⟩
  cases ok <;> rfl
